import Mathlib

/-!
Verification of the financial-insight dashboard (src/dashboard.py) against its
natural-language specification.  Each Python operation relevant to the claims is
shallowly embedded as an executable Lean definition, translated line by line
from the source; theorems about the claims follow the definitions.
-/

namespace Dashboard

/-! ### CodeSanitizer: clean_python_code (src/dashboard.py line 38-39)

Python source: `return raw_code.strip().strip("\x60\x60\x60").replace("python", "").strip()`

`str.strip()` removes leading and trailing whitespace characters;
`str.strip("\x60\x60\x60")` removes leading and trailing characters drawn from the
set containing the backtick; `str.replace(pat, "")` deletes every
(leftmost-first, non-overlapping) occurrence of `pat`.  Strings are embedded by
their character lists. -/

/-- Whitespace characters removed by Python `str.strip()` (ASCII range). -/
def isPySpace (c : Char) : Bool :=
  c = ' ' || c = '\t' || c = '\n' || c = '\r' || c = '\x0b' || c = '\x0c'

/-- Backtick character (the fence character stripped at line 39). -/
def backtick : Char := Char.ofNat 96

/-- Python `str.strip(chars)`: drop characters satisfying `p` from both ends.
Embedded as a from-the-left `dropWhile` followed by a from-the-right
`rdropWhile`. -/
def stripBy (p : Char → Bool) (l : List Char) : List Char :=
  List.rdropWhile p (l.dropWhile p)

/-- Characters of the pattern deleted by `.replace("python", "")`. -/
def pyChars : List Char := ['p', 'y', 't', 'h', 'o', 'n']

/-- Python `str.replace("python", "")`: scan left to right, deleting each
leftmost occurrence of `python` and continuing after it.  The first match arm
fires exactly when `pyChars` is a prefix of the list, as in CPython's
`replace` loop. -/
def replPy : List Char → List Char
  | 'p' :: 'y' :: 't' :: 'h' :: 'o' :: 'n' :: rest => replPy rest
  | c :: cs => c :: replPy cs
  | [] => []

/-- Embedding of `clean_python_code` (src/dashboard.py line 38-39):
strip whitespace, strip backtick fence characters, delete every occurrence of
`python`, strip whitespace again. -/
def clean_python_code (s : String) : String :=
  String.mk (stripBy isPySpace (replPy (stripBy (fun c => c = backtick) (stripBy isPySpace s.data))))

/-- Decidable occurrence check: does `python` occur as a contiguous substring? -/
def hasPy : List Char → Bool
  | 'p' :: 'y' :: 't' :: 'h' :: 'o' :: 'n' :: _ => true
  | _ :: cs => hasPy cs
  | [] => false

/-! #### Sanitizer lemmas -/

theorem replPy_cons_ne (c : Char) (cs : List Char)
    (h : ∀ rest, c = 'p' → cs = 'y' :: 't' :: 'h' :: 'o' :: 'n' :: rest → False) :
    replPy (c :: cs) = c :: replPy cs := by
  rw [replPy.eq_def]
  split
  · rename_i rest heq
    simp only [List.cons.injEq] at heq
    exact absurd heq.2 (fun h2 => h rest heq.1 h2)
  · rename_i c2 cs2 hne heq
    simp only [List.cons.injEq] at heq
    rw [heq.1, heq.2]
  · rename_i heq
    exact absurd heq (by simp)

theorem hasPy_cons_ne (c : Char) (cs : List Char)
    (h : ∀ rest, c = 'p' → cs = 'y' :: 't' :: 'h' :: 'o' :: 'n' :: rest → False) :
    hasPy (c :: cs) = hasPy cs := by
  rw [hasPy.eq_def]
  split
  · rename_i rest heq
    simp only [List.cons.injEq] at heq
    exact absurd heq.2 (fun h2 => h rest heq.1 h2)
  · rename_i c2 cs2 hne heq
    simp only [List.cons.injEq] at heq
    rw [heq.2]
  · rename_i heq
    exact absurd heq (by simp)

theorem hasPy_cons_of (a : Char) (rest : List Char) (h : hasPy rest = true) :
    hasPy (a :: rest) = true := by
  rw [hasPy.eq_def]
  split
  · rfl
  · rename_i c2 cs2 hne heq
    simp only [List.cons.injEq] at heq
    rw [← heq.2]
    exact h
  · rename_i heq
    exact absurd heq (by simp)

theorem replPy_length_le (l : List Char) : (replPy l).length ≤ l.length := by
  induction l using replPy.induct with
  | case1 rest ih =>
    rw [show replPy ('p' :: 'y' :: 't' :: 'h' :: 'o' :: 'n' :: rest) = replPy rest from rfl]
    simp only [List.length_cons]
    omega
  | case2 c cs h ih =>
    rw [replPy_cons_ne c cs h]
    simp only [List.length_cons]
    omega
  | case3 => simp [replPy]

theorem replPy_of_not_hasPy (l : List Char) (h : hasPy l = false) : replPy l = l := by
  induction l using replPy.induct with
  | case1 rest ih =>
    rw [show hasPy ('p' :: 'y' :: 't' :: 'h' :: 'o' :: 'n' :: rest) = true from rfl] at h
    exact absurd h (by simp)
  | case2 c cs hne ih =>
    rw [hasPy_cons_ne c cs hne] at h
    rw [replPy_cons_ne c cs hne, ih h]
  | case3 => rfl

theorem replPy_length_of_hasPy (l : List Char) (h : hasPy l = true) :
    (replPy l).length + 6 ≤ l.length := by
  induction l using replPy.induct with
  | case1 rest ih =>
    rw [show replPy ('p' :: 'y' :: 't' :: 'h' :: 'o' :: 'n' :: rest) = replPy rest from rfl]
    have := replPy_length_le rest
    simp only [List.length_cons]
    omega
  | case2 c cs hne ih =>
    rw [hasPy_cons_ne c cs hne] at h
    rw [replPy_cons_ne c cs hne]
    have := ih h
    simp only [List.length_cons]
    omega
  | case3 => simp [hasPy] at h

theorem hasPy_append_right (u l : List Char) (h : hasPy l = true) :
    hasPy (u ++ l) = true := by
  induction u with
  | nil => simpa using h
  | cons a u ih => exact hasPy_cons_of a (u ++ l) ih

theorem hasPy_append_left (l t : List Char) (h : hasPy l = true) :
    hasPy (l ++ t) = true := by
  induction l using hasPy.induct with
  | case1 rest => rfl
  | case2 c cs hne ih =>
    rw [hasPy_cons_ne c cs hne] at h
    exact hasPy_cons_of c (cs ++ t) (ih h)
  | case3 => simp [hasPy] at h

theorem stripBy_subset (p : Char → Bool) (l : List Char) :
    ∀ c ∈ stripBy p l, c ∈ l := by
  intro c hc
  have h1 := List.rdropWhile_prefix p (l.dropWhile p)
  have h2 : l.dropWhile p <:+ l := List.dropWhile_suffix p
  exact h2.sublist.subset (h1.sublist.subset hc)

theorem hasPy_of_stripBy (p : Char → Bool) (l : List Char)
    (h : hasPy (stripBy p l) = true) : hasPy l = true := by
  have h1 := List.rdropWhile_prefix p (l.dropWhile p)
  have h2 : l.dropWhile p <:+ l := List.dropWhile_suffix p
  obtain ⟨t, ht⟩ := h1
  obtain ⟨u, hu⟩ := h2
  have ha : hasPy (l.dropWhile p) = true := by
    rw [← ht]
    exact hasPy_append_left _ t h
  rw [← hu]
  exact hasPy_append_right u _ ha

theorem dropWhile_eq_self_of_all (p : Char → Bool) (l : List Char)
    (h : ∀ c ∈ l, p c = false) : l.dropWhile p = l := by
  cases l with
  | nil => rfl
  | cons a as => simp [List.dropWhile_cons, h a (List.mem_cons_self a as)]

theorem rdropWhile_eq_self_of_all (p : Char → Bool) (l : List Char)
    (h : ∀ c ∈ l, p c = false) : List.rdropWhile p l = l := by
  unfold List.rdropWhile
  rw [dropWhile_eq_self_of_all p l.reverse (fun c hc => h c (List.mem_reverse.mp hc))]
  exact List.reverse_reverse l

theorem stripBy_eq_self_of_all (p : Char → Bool) (l : List Char)
    (h : ∀ c ∈ l, p c = false) : stripBy p l = l := by
  unfold stripBy
  rw [dropWhile_eq_self_of_all p l h, rdropWhile_eq_self_of_all p l h]

theorem stripBy_idem (p : Char → Bool) (l : List Char) :
    stripBy p (stripBy p l) = stripBy p l := by
  unfold stripBy
  have hd : (List.rdropWhile p (l.dropWhile p)).dropWhile p
      = List.rdropWhile p (l.dropWhile p) := by
    rw [List.dropWhile_eq_self_iff]
    intro h0
    have hpre := List.rdropWhile_prefix p (l.dropWhile p)
    have hlen : 0 < (l.dropWhile p).length := Nat.lt_of_lt_of_le h0 hpre.length_le
    have hhd : ∀ hl : 0 < (l.dropWhile p).length, ¬p ((l.dropWhile p).get ⟨0, hl⟩) := by
      rw [← List.dropWhile_eq_self_iff]
      exact List.dropWhile_idempotent p l
    have hg := hpre.getElem (n := 0) h0
    simp only [List.get_eq_getElem]
    rw [hg]
    simpa using hhd hlen
  rw [hd]
  exact List.rdropWhile_idempotent p (l.dropWhile p)

theorem clean_eq_of_plain (s : String) (hb : backtick ∉ s.data)
    (hp : hasPy s.data = false) :
    clean_python_code s = String.mk (stripBy isPySpace s.data) := by
  unfold clean_python_code
  have hsub := stripBy_subset isPySpace s.data
  have h1 : stripBy (fun c => c = backtick) (stripBy isPySpace s.data)
      = stripBy isPySpace s.data := by
    refine stripBy_eq_self_of_all _ _ (fun c hc => ?_)
    simp only [decide_eq_false_iff_not]
    intro he
    exact hb (he ▸ hsub c hc)
  have h2 : hasPy (stripBy isPySpace s.data) = false := by
    cases h : hasPy (stripBy isPySpace s.data) with
    | false => rfl
    | true => exact absurd (hasPy_of_stripBy isPySpace s.data h) (by simp [hp])
  rw [h1, replPy_of_not_hasPy _ h2, stripBy_idem]

/-- C3 counterexample: the sanitizer is not idempotent.  On the input
`python` followed by a backtick and `a`, the first pass deletes `python`
and leaves a leading backtick that only the second pass strips, so
`sanitize (sanitize x)` differs from `sanitize x`. -/
theorem C3_sanitize_not_idempotent :
    clean_python_code (clean_python_code "python`a") ≠ clean_python_code "python`a" := by
  decide

/-- C3 (amended): the sanitizer is idempotent on every input that contains no
backtick character and no occurrence of the substring `python`; on such inputs
both passes reduce to whitespace stripping, which is idempotent.  (The
unrestricted claim fails: deleting `python` can expose new fence backticks or
form new `python` occurrences, which only a second pass removes.) -/
theorem C3_sanitize_idempotent_amended (s : String) (hb : backtick ∉ s.data)
    (hp : hasPy s.data = false) :
    clean_python_code (clean_python_code s) = clean_python_code s := by
  have hA := clean_eq_of_plain s hb hp
  have hsub := stripBy_subset isPySpace s.data
  have hdata : (String.mk (stripBy isPySpace s.data)).data = stripBy isPySpace s.data := rfl
  have hb2 : backtick ∉ (String.mk (stripBy isPySpace s.data)).data := by
    rw [hdata]
    intro hc
    exact hb (hsub backtick hc)
  have hp2 : hasPy (String.mk (stripBy isPySpace s.data)).data = false := by
    rw [hdata]
    cases h : hasPy (stripBy isPySpace s.data) with
    | false => rfl
    | true => exact absurd (hasPy_of_stripBy isPySpace s.data h) (by simp [hp])
  rw [hA, clean_eq_of_plain _ hb2 hp2, hdata, stripBy_idem]

/-- C3 witness: a concrete plain program (no backticks, no `python`
substring) on which the amended idempotence theorem applies. -/
theorem C3_sanitize_idempotent_witness :
    backtick ∉ "  import plotly  ".data ∧ hasPy "  import plotly  ".data = false ∧
      clean_python_code (clean_python_code "  import plotly  ")
        = clean_python_code "  import plotly  " :=
  ⟨by decide, by decide,
    C3_sanitize_idempotent_amended "  import plotly  " (by decide) (by decide)⟩

/-- C9: the replacement step of the sanitizer deletes every occurrence of the
substring `python` present in its input, wherever it occurs — whenever the
input contains `python` the output is strictly (at least six characters)
shorter — and consequently sanitization rewrites a syntactically valid
program whose only occurrence of `python` lies inside a string literal,
changing the literal (and hence the program's meaning), not merely removing
a leading language tag. -/
theorem C9_python_removed_everywhere :
    (∀ l : List Char, hasPy l = true → (replPy l).length + 6 ≤ l.length) ∧
      clean_python_code "fig.update_layout(title=\"python chart\")"
          = "fig.update_layout(title=\" chart\")" ∧
        clean_python_code "fig.update_layout(title=\"python chart\")"
            ≠ "fig.update_layout(title=\"python chart\")" :=
  ⟨replPy_length_of_hasPy, by decide, by decide⟩

/-- C9 witness: the length bound of the removal theorem evaluated on a
concrete list containing `python` mid-identifier. -/
theorem C9_python_removed_witness :
    hasPy "my_python_var".data = true ∧
      (replPy "my_python_var".data).length + 6 ≤ "my_python_var".data.length :=
  ⟨by decide, C9_python_removed_everywhere.1 "my_python_var".data (by decide)⟩

/-! ### MetricsDeriver: financial_summary derivation (src/dashboard.py lines 62-68)

The fetched quarterly records are JSON objects; `pd.DataFrame(records)` builds
a table whose column set is the union of the record keys, with `NaN` in the
cells of records lacking a key, and a later column access `financials[col]`
raises `KeyError` exactly when no record carried that key.  Numeric cells are
embedded as `PValue`: a rational for a finite float, plus the IEEE-754
`inf`, `-inf` and `NaN` values that pandas element-wise division produces
(the quotients exercised by the claims — small integer ratios and zero
denominators — are exact, so no rounding is abstracted away). -/

/-- Value held in a numeric cell of the DataFrame. -/
inductive PValue where
  | num (q : ℚ)
  | inf
  | neginf
  | nan
deriving DecidableEq, Repr

/-- Element-wise pandas `/` on float cells (IEEE-754 division): any `NaN`
operand propagates; a zero denominator yields `NaN` for a zero numerator and a
signed infinity otherwise — never an error. -/
def pdiv : PValue → PValue → PValue
  | .nan, _ => .nan
  | _, .nan => .nan
  | .num a, .num b =>
      if b = 0 then
        if a = 0 then .nan else if 0 < a then .inf else .neginf
      else .num (a / b)
  | .num _, .inf => .num 0
  | .num _, .neginf => .num 0
  | .inf, .num b => if 0 ≤ b then .inf else .neginf
  | .neginf, .num b => if 0 ≤ b then .neginf else .inf
  | .inf, .inf => .nan
  | .inf, .neginf => .nan
  | .neginf, .inf => .nan
  | .neginf, .neginf => .nan

theorem pdiv_nan_right (x : PValue) : pdiv x .nan = .nan := by
  cases x <;> rfl

theorem pdiv_nan_left (x : PValue) : pdiv .nan x = .nan := by
  cases x <;> rfl

/-- Calendar date carried by the `date` field of a fetched record. -/
structure Date where
  year : ℕ
  month : ℕ
  day : ℕ
deriving DecidableEq, Repr

/-- Raw quarterly record as fetched from the data source; a `none` field means
the key is absent from that JSON record. -/
structure RawRecord where
  date : Option Date := none
  revenue : Option PValue := none
  total_liabilities : Option PValue := none
  total_equity : Option PValue := none
  total_assets : Option PValue := none
deriving DecidableEq, Repr

/-- Two-digit zero padding used by `strftime` for the month. -/
def pad2 (n : ℕ) : String := if n < 10 then "0" ++ toString n else toString n

/-- Embedding of `strftime("%m-%Y")` applied after `pd.to_datetime`
(src/dashboard.py lines 65-66). -/
def formatMonthYear (d : Date) : String := pad2 d.month ++ "-" ++ toString d.year

/-- Row of the derived DataFrame after lines 65-68: the `date` column
reformatted (a missing date is `NaT` and formats to `NaN`, kept as `none`),
the four raw numeric columns (missing cells filled with `NaN` by the
DataFrame constructor), and the two appended ratio columns. -/
structure DerivedRecord where
  date : Option String
  revenue : PValue
  total_liabilities : PValue
  total_equity : PValue
  total_assets : PValue
  DER : PValue
  asset_turnover : PValue
deriving DecidableEq, Repr

/-- Row-wise action of lines 65-68 on one record:
`DER = total_liabilities / total_equity` and
`asset_turnover = revenue / total_assets`, with `NaN` for missing cells. -/
def derive1 (r : RawRecord) : DerivedRecord where
  date := r.date.map formatMonthYear
  revenue := r.revenue.getD .nan
  total_liabilities := r.total_liabilities.getD .nan
  total_equity := r.total_equity.getD .nan
  total_assets := r.total_assets.getD .nan
  DER := pdiv (r.total_liabilities.getD .nan) (r.total_equity.getD .nan)
  asset_turnover := pdiv (r.revenue.getD .nan) (r.total_assets.getD .nan)

/-- Embedding of the derivation in `financial_summary` (lines 62-68): a column
access raises `KeyError` when the key is absent from every record (the columns
are accessed in source order `date`, `total_liabilities`, `total_equity`,
`revenue`, `total_assets`); otherwise each row is derived in place, preserving
the order in which the data source returned the records. -/
def deriveSeries (rs : List RawRecord) : Except String (List DerivedRecord) :=
  if rs.any (fun r => r.date.isSome) = false then .error "KeyError: date"
  else if rs.any (fun r => r.total_liabilities.isSome) = false then
    .error "KeyError: total_liabilities"
  else if rs.any (fun r => r.total_equity.isSome) = false then
    .error "KeyError: total_equity"
  else if rs.any (fun r => r.revenue.isSome) = false then .error "KeyError: revenue"
  else if rs.any (fun r => r.total_assets.isSome) = false then
    .error "KeyError: total_assets"
  else .ok (rs.map derive1)

/-- Column projection at src/dashboard.py line 103:
`financials[['date','revenue','total_liabilities','total_equity','total_assets','DER','asset_turnover']]`
selects exactly the derived table's columns in their existing order, so it is
the identity on the embedded rows; the synthesized-visualization prompt (and
hence the trend computation) receives this projection. -/
def data_sample (s : List DerivedRecord) : List DerivedRecord := s

/-- Inversion for a successful derivation: the produced series is exactly the
row-wise derivation of the fetched records, in fetched order. -/
theorem deriveSeries_ok (rs : List RawRecord) (s : List DerivedRecord)
    (h : deriveSeries rs = .ok s) : s = rs.map derive1 := by
  unfold deriveSeries at h
  split_ifs at h
  simp_all

/-! #### Concrete records used by the claims -/

/-- Complete quarterly record (Q1), all required fields present. -/
def recFull : RawRecord :=
  { date := some ⟨2025, 3, 31⟩, revenue := some (.num 10),
    total_liabilities := some (.num 4), total_equity := some (.num 2),
    total_assets := some (.num 8) }

/-- Quarterly record (Q2) lacking the required field `total_equity`. -/
def recNoEquity : RawRecord :=
  { date := some ⟨2025, 6, 30⟩, revenue := some (.num 12),
    total_liabilities := some (.num 6), total_equity := none,
    total_assets := some (.num 8) }

/-- Record with `total_liabilities = 100` and `total_equity = 0`. -/
def recZeroEquity : RawRecord :=
  { date := some ⟨2025, 3, 31⟩, revenue := some (.num 10),
    total_liabilities := some (.num 100), total_equity := some (.num 0),
    total_assets := some (.num 8) }

/-! ### Claim C2 — zero denominators -/

/-- C2 counterexample: on a record with `total_liabilities = 100` and
`total_equity = 0`, pandas float division yields positive infinity, not the
`NaN` sentinel, refuting the claim that a zero `total_equity` always makes
`DER` the `NaN` sentinel. -/
theorem C2_zero_equity_gives_inf :
    (derive1 recZeroEquity).DER = PValue.inf ∧ PValue.inf ≠ PValue.nan := by
  refine ⟨?_, by simp⟩
  norm_num [derive1, recZeroEquity, pdiv]

/-- C2 (amended): metric derivation never fails on a zero denominator, but the
value emitted for a zero denominator is the `NaN` sentinel only when the
numerator is zero as well (or itself `NaN`); a nonzero numerator gives a
signed infinity.  With `total_liabilities = 100` and `total_equity = 50`,
`DER = 2.0` as claimed. -/
theorem C2_zero_denominator_amended :
    (∀ r : RawRecord, r.total_liabilities = some (.num 100) →
      r.total_equity = some (.num 50) → (derive1 r).DER = .num 2) ∧
      (∀ r : RawRecord, ∀ q : ℚ, r.total_liabilities = some (.num q) →
        r.total_equity = some (.num 0) →
          (derive1 r).DER
            = if q = 0 then .nan else if 0 < q then .inf else .neginf) ∧
        (∀ r : RawRecord, ∀ q : ℚ, r.revenue = some (.num q) →
          r.total_assets = some (.num 0) →
            (derive1 r).asset_turnover
              = if q = 0 then .nan else if 0 < q then .inf else .neginf) := by
  refine ⟨fun r h1 h2 => ?_, fun r q h1 h2 => ?_, fun r q h1 h2 => ?_⟩
  · norm_num [derive1, pdiv, h1, h2]
  · simp [derive1, pdiv, h1, h2]
  · simp [derive1, pdiv, h1, h2]

/-- C2 witness: the amended zero-denominator rule evaluated on the concrete
record with liabilities 100 and equity 0. -/
theorem C2_zero_denominator_witness :
    recZeroEquity.total_liabilities = some (PValue.num 100) ∧
      recZeroEquity.total_equity = some (PValue.num 0) ∧
        (derive1 recZeroEquity).DER
          = if (100 : ℚ) = 0 then PValue.nan
            else if 0 < (100 : ℚ) then PValue.inf else PValue.neginf :=
  ⟨rfl, rfl, C2_zero_denominator_amended.2.1 recZeroEquity 100 rfl rfl⟩

/-! ### Claim C6 — missing required fields -/

/-- C6 counterexample: with a series in which one record lacks the required
field `total_equity` (while each required key occurs in some record), the
derivation does not fail at all — it completes and silently emits `NaN`
metrics for the incomplete record, so a partial series is produced. -/
theorem C6_partial_missing_field_no_error :
    (deriveSeries [recFull, recNoEquity]).isOk = true ∧
      (deriveSeries [recFull, recNoEquity]).toOption
          = some [derive1 recFull, derive1 recNoEquity] ∧
        (derive1 recNoEquity).DER = PValue.nan := by
  refine ⟨?_, ?_, ?_⟩ <;>
    simp [deriveSeries, recFull, recNoEquity, Except.isOk, Except.toBool,
      Except.toOption, derive1, pdiv]

/-- C6 (amended): derivation fails (an uncaught `KeyError` from the column
access, the failure class the spec names `DataError`) precisely when some
required field is absent from EVERY record of the series — the DataFrame then
has no such column; a field absent from only some records yields `NaN` cells
and `NaN`-valued ratios in those rows while derivation completes. -/
theorem C6_missing_field_amended :
    (∀ rs : List RawRecord, (deriveSeries rs).isOk = true ↔
      (rs.any (fun r => r.date.isSome) = true ∧
        rs.any (fun r => r.total_liabilities.isSome) = true ∧
          rs.any (fun r => r.total_equity.isSome) = true ∧
            rs.any (fun r => r.revenue.isSome) = true ∧
              rs.any (fun r => r.total_assets.isSome) = true)) ∧
      (∀ r : RawRecord, r.total_equity = none → (derive1 r).DER = PValue.nan) := by
  constructor
  · intro rs
    unfold deriveSeries
    split_ifs with h1 h2 h3 h4 h5 <;>
      simp_all [Except.isOk, Except.toBool, Option.isSome_iff_ne_none]
  · intro r h
    simp [derive1, h, pdiv_nan_right]

/-- C6 witness: the amended characterisation evaluated on a series whose
records never carry `total_equity` (derivation errors) and on a record with
`total_equity` absent (NaN ratio). -/
theorem C6_missing_field_witness :
    ((deriveSeries [recNoEquity]).isOk = true ↔
      ([recNoEquity].any (fun r => r.date.isSome) = true ∧
        [recNoEquity].any (fun r => r.total_liabilities.isSome) = true ∧
          [recNoEquity].any (fun r => r.total_equity.isSome) = true ∧
            [recNoEquity].any (fun r => r.revenue.isSome) = true ∧
              [recNoEquity].any (fun r => r.total_assets.isSome) = true)) ∧
      recNoEquity.total_equity = none ∧ (derive1 recNoEquity).DER = PValue.nan :=
  ⟨C6_missing_field_amended.1 [recNoEquity], rfl,
    C6_missing_field_amended.2 recNoEquity rfl⟩

/-! ### Claim C8 — explicit sorting by date -/

/-- Sort key of a record's date (lexicographic year, month, day encoded as a
number; absent dates sort first). -/
def dateIdx (r : RawRecord) : ℕ :=
  match r.date with
  | some d => d.year * 10000 + d.month * 100 + d.day
  | none => 0

/-- Insertion step of the spec-side date sort. -/
def specInsertByDate (r : RawRecord) : List RawRecord → List RawRecord
  | [] => [r]
  | x :: xs =>
    if dateIdx r ≤ dateIdx x then r :: x :: xs else x :: specInsertByDate r xs

/-- Definition following the specification's words (not the source): the
explicit normalization "sort the records by date" that the spec requires
before any trend-sensitive computation; used only to compare the code's
behaviour against it. -/
def specSortByDate (rs : List RawRecord) : List RawRecord :=
  rs.foldr specInsertByDate []

/-- Second quarterly record (Q2, date 2025-06-30), later than `recFull`. -/
def recQ2 : RawRecord :=
  { date := some ⟨2025, 6, 30⟩, revenue := some (.num 12),
    total_liabilities := some (.num 6), total_equity := some (.num 2),
    total_assets := some (.num 8) }

/-- Series as a data source may return it: most recent quarter first, i.e.
NOT ascending by date. -/
def rsDesc : List RawRecord := [recQ2, recFull]

/-- C8 counterexample: the pipeline performs no sort.  On a source series in
descending date order, the derived series (and the projection handed to the
trend/visualization computation) still lists 06-2025 before 03-2025, while
the spec-side date sort would have reversed it — so a trend computation does
receive a series that is not date-ordered. -/
theorem C8_trend_receives_unsorted :
    (deriveSeries rsDesc).toOption.map (fun s => (data_sample s).map (fun d => d.date))
        = some [some "06-2025", some "03-2025"] ∧
      specSortByDate rsDesc = [recFull, recQ2] ∧
        rsDesc = [recQ2, recFull] ∧ recFull ≠ recQ2 := by
  refine ⟨?_, ?_, rfl, ?_⟩
  · simp only [deriveSeries, rsDesc, recQ2, recFull, Except.toOption, data_sample,
      derive1, formatMonthYear, pad2]
    decide
  · simp [specSortByDate, specInsertByDate, rsDesc, dateIdx, recQ2, recFull]
  · simp [recFull, recQ2]

/-- C8 (amended): no explicit sort by date is performed anywhere; metric
derivation and the column projection handed to the trend and visualization
computations preserve the data-source record order exactly, so a trend
computation receives a date-ordered series only if the source already
returned one. -/
theorem C8_order_preserved_amended :
    ∀ rs : List RawRecord, ∀ s : List DerivedRecord, deriveSeries rs = .ok s →
      data_sample s = rs.map derive1 := by
  intro rs s h
  rw [data_sample, deriveSeries_ok rs s h]

/-- C8 witness: order preservation evaluated on the descending-date series. -/
theorem C8_order_preserved_witness :
    data_sample [derive1 recQ2, derive1 recFull] = rsDesc.map derive1 :=
  C8_order_preserved_amended rsDesc [derive1 recQ2, derive1 recFull] (by
    simp [deriveSeries, rsDesc, recQ2, recFull])

/-! ### Claim C10 — frame condition of the derivation -/

/-- C10: metric derivation only appends the `DER` and `asset_turnover` columns
and reformats the `date` column; every successful derivation leaves the
`revenue`, `total_liabilities`, `total_equity` and `total_assets` column
values exactly as they stood in the fetched DataFrame (records in fetched
order, missing cells being the constructor's `NaN` fill). -/
theorem C10_frame_columns_unchanged :
    ∀ rs : List RawRecord, ∀ s : List DerivedRecord, deriveSeries rs = .ok s →
      s.map (fun d => d.revenue) = rs.map (fun r => r.revenue.getD PValue.nan) ∧
        s.map (fun d => d.total_liabilities)
            = rs.map (fun r => r.total_liabilities.getD PValue.nan) ∧
          s.map (fun d => d.total_equity)
              = rs.map (fun r => r.total_equity.getD PValue.nan) ∧
            s.map (fun d => d.total_assets)
                = rs.map (fun r => r.total_assets.getD PValue.nan) ∧
              s.map (fun d => d.date)
                  = rs.map (fun r => r.date.map formatMonthYear) := by
  intro rs s h
  rw [deriveSeries_ok rs s h]
  refine ⟨?_, ?_, ?_, ?_, ?_⟩ <;> simp [List.map_map, derive1, Function.comp]

/-- C10 witness: the frame condition evaluated on the one-record series of the
complete record. -/
theorem C10_frame_witness :
    [derive1 recFull].map (fun d => d.revenue)
        = [recFull].map (fun r => r.revenue.getD PValue.nan) ∧
      [derive1 recFull].map (fun d => d.total_liabilities)
          = [recFull].map (fun r => r.total_liabilities.getD PValue.nan) ∧
        [derive1 recFull].map (fun d => d.total_equity)
            = [recFull].map (fun r => r.total_equity.getD PValue.nan) ∧
          [derive1 recFull].map (fun d => d.total_assets)
              = [recFull].map (fun r => r.total_assets.getD PValue.nan) ∧
            [derive1 recFull].map (fun d => d.date)
                = [recFull].map (fun r => r.date.map formatMonthYear) :=
  C10_frame_columns_unchanged [recFull] [derive1 recFull] (by
    simp [deriveSeries, recFull])

/-! ### PromptComposer: run_llm prompt construction (src/dashboard.py lines 34-35)

`PromptTemplate.from_template(tpl).format(data=df.to_string(index=False))`
substitutes the single placeholder of the template with the textual
serialization of the DataFrame.  `to_string(index=False)` prints the header
(the columns in their fixed insertion order) and every row, untruncated; the
exact numeral rendering and column padding are abstracted by a fixed
deterministic cell renderer, which preserves what the claims concern: the
serialization is a function of the series alone, keeps all rows, and uses the
fixed column order. -/

/-- Columns of the derived DataFrame in their fixed (insertion) order. -/
def fixed_columns : List String :=
  ["date", "revenue", "total_liabilities", "total_equity", "total_assets",
    "DER", "asset_turnover"]

/-- Deterministic rendering of a numeric cell. -/
def pvalString : PValue → String
  | .num q => toString q.num ++ "/" ++ toString q.den
  | .inf => "inf"
  | .neginf => "-inf"
  | .nan => "NaN"

/-- Rendering of a date cell (`NaN` for a missing date). -/
def cellString : Option String → String
  | some s => s
  | none => "NaN"

/-- Serialization of one row, cells in the fixed column order. -/
def serialize_row (r : DerivedRecord) : String :=
  String.intercalate " "
    [cellString r.date, pvalString r.revenue, pvalString r.total_liabilities,
      pvalString r.total_equity, pvalString r.total_assets, pvalString r.DER,
      pvalString r.asset_turnover]

/-- Embedding of `df.to_string(index=False)`: the header line followed by one
line per record, in order, with no truncation. -/
def to_string_noindex (s : List DerivedRecord) : String :=
  String.intercalate "\n"
    (String.intercalate " " fixed_columns :: s.map serialize_row)

/-- Placeholder pattern of the prompt templates. -/
def placeholderChars : List Char := "{data}".data

/-- Substitution of every occurrence of the placeholder by the serialized
data, scanning left to right as `str.format` / `PromptTemplate.format` does
for the single placeholder. -/
def substData (rep : List Char) : List Char → List Char
  | [] => []
  | c :: cs =>
    if placeholderChars.isPrefixOf (c :: cs) then rep ++ substData rep (cs.drop 5)
    else c :: substData rep cs
termination_by l => l.length
decreasing_by
  all_goals simp only [List.length_cons, List.length_drop]
  all_goals omega

/-- Embedding of the prompt construction in `run_llm` (line 35): the template
text with the placeholder replaced by the series' serialization.  It reads no
state other than its two arguments, exactly as the source line does. -/
def run_llm_prompt (tpl : String) (s : List DerivedRecord) : String :=
  String.mk (substData (to_string_noindex s).data tpl.data)

/-- C7: prompt composition is pure and deterministic — two calls on equal
template and series produce identical prompt text; the serialization keeps
one line per record (no truncation) and always begins with the header of the
fixed column order. -/
theorem C7_prompt_composition_deterministic :
    (∀ tpl : String, ∀ s1 s2 : List DerivedRecord, s1 = s2 →
      run_llm_prompt tpl s1 = run_llm_prompt tpl s2) ∧
      (∀ s : List DerivedRecord, (s.map serialize_row).length = s.length) ∧
        (∀ s : List DerivedRecord, to_string_noindex s
            = String.intercalate "\n"
                (String.intercalate " " fixed_columns :: s.map serialize_row)) := by
  refine ⟨fun tpl s1 s2 h => ?_, fun s => ?_, fun s => rfl⟩
  · rw [h]
  · simp

/-- C7 witness: determinism evaluated at a concrete template and series. -/
theorem C7_prompt_composition_witness :
    run_llm_prompt "analyse: {data}" [derive1 recFull]
      = run_llm_prompt "analyse: {data}" [derive1 recFull] :=
  C7_prompt_composition_deterministic.1 "analyse: {data}"
    [derive1 recFull] [derive1 recFull] rfl

/-! ### SandboxExecutor: revenue_trend execution step (src/dashboard.py lines 199-203)

`exec_locals = {}` then `exec(code, {}, exec_locals)` then
`st.plotly_chart(exec_locals["fig"], ...)`.  Python objects are embedded by
an opaque identity (a natural number); the locals dict produced by the
execution is an association list.  The only extraction performed by the
source is the lookup of the binding `fig`; a missing key raises `KeyError`,
which aborts the step uncaught. -/

/-- Outcome of the display step at line 203. -/
inductive StepResult where
  | rendered (fig : ℕ)
  | raised (err : String)
deriving DecidableEq, Repr

/-- Embedding of line 203: fetch the designated output binding `fig` from the
locals namespace left by `exec`; a missing binding raises `KeyError` (the
failure class the spec names `ExecutionError`), and the only value ever
rendered is the looked-up object itself. -/
def display_exec_result (exec_locals : List (String × ℕ)) : StepResult :=
  match List.lookup "fig" exec_locals with
  | some v => .rendered v
  | none => .raised "KeyError: fig"

/-- C4: whenever the executed program terminates without binding `fig`, the
step fails with the missing-binding error, and no placeholder artifact is
ever rendered — anything rendered is exactly the object bound to `fig`. -/
theorem C4_missing_fig_fails :
    (∀ exec_locals : List (String × ℕ), List.lookup "fig" exec_locals = none →
      display_exec_result exec_locals = .raised "KeyError: fig") ∧
      (∀ exec_locals : List (String × ℕ), ∀ v : ℕ,
        display_exec_result exec_locals = .rendered v →
          List.lookup "fig" exec_locals = some v) := by
  constructor
  · intro ns h
    simp [display_exec_result, h]
  · intro ns v h
    unfold display_exec_result at h
    cases hl : List.lookup "fig" ns with
    | none => rw [hl] at h; exact absurd h (by simp)
    | some w => rw [hl] at h; cases h; rfl

/-- C4 witness: the missing-binding case evaluated on a locals namespace that
binds only an unrelated name. -/
theorem C4_missing_fig_witness :
    List.lookup "fig" [("ans", 7)] = none ∧
      display_exec_result [("ans", 7)] = StepResult.raised "KeyError: fig" :=
  ⟨by decide, C4_missing_fig_fails.1 [("ans", 7)] (by decide)⟩

/-! ### Panel orchestration: main insight block (src/dashboard.py lines 267-277)

The four panels run strictly sequentially inside one `with st.spinner` block
with no `try`/`except` anywhere: `financial_summary` (which owns the summary
generation call), then `revenue_trend` (visualization synthesis and
execution), then `trend_analysis`, then `risk_analysis`.  An exception from a
panel's generative-service call (`run_llm` / `llm.invoke`, lines 34-36 and
197, the failure the spec names `GenerationError`) propagates and aborts the
block, so the panels after the failing one never run. -/

/-- The four dashboard panels. -/
inductive Panel where
  | summary
  | viz
  | trend
  | risk
deriving DecidableEq, Repr

/-- Execution order of the panels in `main` (lines 269-277). -/
def panel_order : List Panel := [.summary, .viz, .trend, .risk]

/-- Panels that complete when `fails p` says whether panel `p`'s owned
generative call raises: the sequential block completes exactly the prefix of
`panel_order` before the first failure. -/
def run_insight (fails : Panel → Bool) : List Panel :=
  panel_order.takeWhile (fun p => !fails p)

/-- C5 counterexample: a failure in the summary panel aborts all of its
sibling panels — with only the summary generation failing, no panel at all
completes, and in particular the trend panel does not, refuting "a failure in
one panel never aborts its siblings". -/
theorem C5_summary_failure_aborts_siblings :
    run_insight (fun p => p = Panel.summary) = [] ∧
      Panel.trend ∉ run_insight (fun p => p = Panel.summary) := by
  refine ⟨?_, ?_⟩ <;> simp [run_insight, panel_order, List.takeWhile]

/-- C5 (amended): failures are scoped by position, not by panel: a failing
panel aborts every panel after it in the order summary, visualization,
trend, risk.  Only a failure in the last panel (risk analysis) leaves all
its siblings complete — which is the particular scenario the claim cites —
while a summary failure aborts everything. -/
theorem C5_sequential_panels_amended :
    (∀ fails : Panel → Bool, fails .summary = false → fails .viz = false →
      fails .trend = false →
        run_insight fails
          = [.summary, .viz, .trend]
              ++ (if fails .risk = true then [] else [.risk])) ∧
      (∀ fails : Panel → Bool, fails .summary = true → run_insight fails = []) := by
  constructor
  · intro fails hs hv ht
    cases hr : fails .risk <;>
      simp [run_insight, panel_order, List.takeWhile, hs, hv, ht, hr]
  · intro fails hs
    simp [run_insight, panel_order, List.takeWhile, hs]

/-- C5 witness: the amended scoping evaluated with only the risk panel
failing — the other three panels complete. -/
theorem C5_sequential_panels_witness :
    (fun p => p = Panel.risk : Panel → Bool) Panel.summary = false ∧
      run_insight (fun p => p = Panel.risk)
        = [Panel.summary, Panel.viz, Panel.trend]
            ++ (if (fun p => p = Panel.risk : Panel → Bool) Panel.risk = true
                then [] else [Panel.risk]) :=
  ⟨by decide,
    C5_sequential_panels_amended.1 (fun p => p = Panel.risk)
      (by decide) (by decide) (by decide)⟩

/-! ### Sandbox namespace: the exec call (src/dashboard.py lines 201-202)

`exec_locals = {}` and `exec(code, {}, exec_locals)`: both mappings passed to
`exec` are empty literals, so the code injects no name whatsoever — not even
the data (`financials` is only pasted as text into the prompt).  By CPython
`exec` semantics, a globals mapping that lacks the key `__builtins__` is
populated with the full builtins module before execution, so the executed
program reaches every builtin, including `__import__` (unrestricted import,
hence filesystem, network and process spawning via `os`/`subprocess`),
`open`, `eval` and `exec`. -/

/-- Names explicitly bound in the globals mapping passed to `exec`
(line 202: the literal `\x7b\x7d`). -/
def exec_globals_injected : List String := []

/-- Names explicitly bound in the locals mapping passed to `exec`
(line 201: `exec_locals = \x7b\x7d`). -/
def exec_locals_injected : List String := []

/-- Capability-bearing names of the builtins module that CPython injects into
an `exec` globals mapping lacking `__builtins__` (a sample sufficient for the
claim). -/
def implicit_builtin_names : List String :=
  ["__import__", "open", "eval", "exec", "compile", "getattr", "input"]

/-- Names reachable by the executed program: the explicitly injected names
plus the implicitly injected builtins. -/
def exec_reachable_names : List String :=
  exec_globals_injected ++ exec_locals_injected ++ implicit_builtin_names

/-- Definition following the specification's words (not the source): the
enumerated capability set the spec allows the executed program — the data
value and the plotting/data-processing primitives needed to build the
figure. -/
def spec_enumerated_capabilities : List String :=
  ["financials", "pd", "go", "make_subplots"]

/-- C1: the executor injects no name at all, and the namespace reachable by
the executed program nevertheless contains `__import__` and `open` —
unrestricted import and filesystem capability — neither of which is in the
spec's enumerated capability set, while the data value `financials` is not
reachable at all.  This refutes the claimed sandbox property and exhibits
the divergence the spec itself orders corrected. -/
theorem C1_exec_namespace_unrestricted :
    exec_globals_injected = [] ∧ exec_locals_injected = [] ∧
      "__import__" ∈ exec_reachable_names ∧ "open" ∈ exec_reachable_names ∧
        "__import__" ∉ spec_enumerated_capabilities ∧
          "open" ∉ spec_enumerated_capabilities ∧
            "financials" ∉ exec_reachable_names := by
  refine ⟨rfl, rfl, ?_, ?_, ?_, ?_, ?_⟩ <;> decide

end Dashboard
